import Mathlib

/-!
Shallow embedding of the Telpenarmo/webserver sources.

The embedding covers the parts of the code that the verified claims are
about:

* `http.rs` — the `Status` and `Response` types with their constructors
  and transforms (`new`, `with_content`, `add_content`, `set_header`,
  `load_file`, `to_head`, `render`), and the `Request` type;
* `static_server.rs` — resource resolution (`get_relative_resource_path`,
  `handle_get_request`, `handle_head_request`, `redirect_dir`,
  `load_error`, `get_error_page`);
* `parser.rs` / `reader.rs` — the header-capacity retry loop (`try_read`)
  and Content-Length validation (`get_content_length`);
* `main.rs` — the per-connection loop decision logic
  (`handle_connection_step`) and the duplicated retry loop
  (`get_res_or_partial`).

Modelling conventions: filesystem paths are lists of components
(the component-wise view Rust uses for `strip_prefix` and `join`);
the ambient filesystem is an explicit oracle (`FS`) passed to every
operation that performs filesystem effects; byte strings whose content
is textual are modelled as `String` (lengths are measured in UTF-8
bytes, matching `Vec<u8>::len`), while request header values, which may
be arbitrary non-UTF-8 bytes, are modelled as `List Nat`; the external
`httparse` crate is a supplied primitive per the design and is modelled
from its stated contract as an oracle over an abstract buffer.
Logging calls (`tracing`, `eprintln`) have no observable effect and are
dropped.
-/

/-- HTTP status codes, from `http.rs` (`enum Status`). -/
inductive Status where
  | Ok
  | Moved
  | BadRequest
  | Forbidden
  | NotFound
  | MethodNotAllowed
  | RequestTimeout
  | RequestURITooLong
  | InternalServerError
  | NotImplemented
  | HTTPVersionNotSupported
deriving DecidableEq

/-- Numeric code of a status, from `http.rs` (`Status::code`). -/
def Status.code : Status → Nat
  | .Ok => 200
  | .Moved => 301
  | .BadRequest => 400
  | .Forbidden => 403
  | .NotFound => 404
  | .MethodNotAllowed => 405
  | .RequestTimeout => 408
  | .RequestURITooLong => 415
  | .InternalServerError => 500
  | .NotImplemented => 501
  | .HTTPVersionNotSupported => 505

/-- Header maps (`HashMap<String, Vec<u8>>`) are modelled as association
lists; `insert_header` replaces an existing binding in place
(`HashMap::insert`) and otherwise appends a new one. The fixed list
order stands in for the (unspecified) hash-map iteration order. -/
def insert_header {α : Type} : List (String × α) → String → α → List (String × α)
  | [], k, v => [(k, v)]
  | (k0, v0) :: rest, k, v =>
      if k0 = k then (k, v) :: rest else (k0, v0) :: insert_header rest k v

/-- Lookup in a header map (`HashMap::get`). -/
def get_header {α : Type} : List (String × α) → String → Option α
  | [], _ => none
  | (k0, v0) :: rest, k => if k0 = k then some v0 else get_header rest k

/-- A filesystem path, as its list of components (the view under which
Rust performs `Path::join` of relative pieces and `Path::strip_prefix`). -/
abbrev FsPath := List String

/-- Outcome of `std::fs::canonicalize`, split by `io::ErrorKind` exactly
as `handle_get_request` inspects it: success, `NotFound`,
`PermissionDenied`, or any other error kind (carrying its message). -/
inductive CanonResult where
  | Ok : FsPath → CanonResult
  | NotFound
  | PermissionDenied
  | OtherError : String → CanonResult
deriving DecidableEq

/-- Oracle for the ambient filesystem: canonicalization
(`std::fs::canonicalize`), directory test (`Path::is_dir`), file loading
(`File::open` followed by `read_to_end`, collapsed into one optional
read since both failure modes lead to the same `server_error` call), and
existence (`Path::exists`, used by the error-page lookup). -/
structure FS where
  canonicalize : FsPath → CanonResult
  is_dir : FsPath → Bool
  read_file : FsPath → Option String
  path_exists : FsPath → Bool

/-- Split a character list into the (possibly empty) groups delimited by
the character `c`. -/
def split_on_char (c : Char) : List Char → List (List Char)
  | [] => [[]]
  | a :: rest =>
      let groups := split_on_char c rest
      if a = c then [] :: groups
      else
        match groups with
        | [] => [[a]]
        | g :: gs => (a :: g) :: gs

/-- `Path::extension` of the final component: the part after the last
dot; `none` when there is no component, the name has no dot, or the only
dot is the leading dot of a hidden file name. -/
def extension (p : FsPath) : Option String :=
  match p.getLast? with
  | none => none
  | some name =>
      match split_on_char '.' name.data with
      | [] => none
      | [_] => none
      | [[], _] => none
      | parts => parts.getLast?.map (fun cs => String.mk cs)

/-- MIME type lookup, from `utils.rs` (`match_file_type`). -/
def match_file_type (filename : FsPath) : String :=
  match extension filename with
  | some "txt" => "text/plain, charset=utf-8"
  | some "html" => "text/html, charset=utf-8"
  | some "css" => "text/css"
  | some "js" => "application/javascript"
  | some "jpg" => "image/jpeg"
  | some "jpeg" => "image/jpeg"
  | some "png" => "image/png"
  | some "pdf" => "application/pdf"
  | some "json" => "application/json"
  | _ => "application/octet-stream"

/-- A parsed HTTP request, from `http.rs` (`struct Request`). Header
values are raw bytes (`Vec<u8>`), modelled as lists of byte values. -/
structure Request where
  method : String
  path : String
  version : Nat
  headers : List (String × List Nat)
deriving DecidableEq

/-- An HTTP response under construction, from `http.rs`
(`struct Response`). -/
structure Response where
  status : Status
  headers : List (String × String)
  content : Option String
deriving DecidableEq

/-- `Response::new`: fresh response with the given status and the single
`Server` header. -/
def Response.new (status : Status) : Response :=
  { status := status
    headers := insert_header [] "Server" "Telpenarmo\x27s webserver"
    content := none }

/-- `Response::add_content`: attach a body and (re)derive the
`Content-Length` header from its byte length. -/
def Response.add_content (r : Response) (content : String) : Response :=
  { r with
      headers := insert_header r.headers "Content-Length" (toString content.utf8ByteSize)
      content := some content }

/-- `Response::set_header`. -/
def Response.set_header (r : Response) (name value : String) : Response :=
  { r with headers := insert_header r.headers name value }

/-- `Response::with_content`: fresh response whose body is the given
content with a trailing newline appended. -/
def Response.with_content (status : Status) (content : String) : Response :=
  (Response.new status).add_content (content ++ "\n")

/-- `http.rs` `server_error`: logs the message (dropped here) and
produces a 500 response with the fixed body. -/
def server_error (_msg : String) : Response :=
  Response.with_content Status.InternalServerError "Internal server error."

/-- `Response::load_file`: read the file and attach it as body with its
MIME content type; any open/read failure degrades to `server_error`. -/
def Response.load_file (r : Response) (fs : FS) (path : FsPath) : Response :=
  match fs.read_file path with
  | none => server_error "Error on opening or reading file"
  | some buffer => (r.add_content buffer).set_header "Content-Type" (match_file_type path)

/-- `Response::to_head`: strip the body, keep status and headers. -/
def Response.to_head (r : Response) : Response :=
  { r with content := none }

/-- `Response::status_line`. -/
def Response.status_line (r : Response) : String :=
  "HTTP/1.1 " ++ toString r.status.code

/-- `Response::render_header`: one wire header line (the value is
emitted verbatim, `String::from_utf8_unchecked` in the source). -/
def Response.render_header (p : String × String) : String :=
  p.1 ++ ": " ++ p.2

/-- `Response::render`: the status line, the header lines, one empty
element standing for the blank line, then the body if present, all
joined with CRLF (`Vec::join`, which puts the separator only between
consecutive elements). -/
def Response.render (r : Response) : String :=
  let lines := [r.status_line] ++ r.headers.map Response.render_header ++ [""] ++
    (match r.content with
     | some c => [c]
     | none => [])
  String.intercalate "\r\n" lines

/-- Process-wide configuration, from `lib.rs` (`struct Config`). -/
structure Config where
  directory : FsPath
  port : Nat
  keep_alive : Nat
  max_headers_number : Nat
  threads_per_connection : Nat
deriving DecidableEq

/-- Per-host state, from `static_server.rs` (`struct Data`). The method
handler table is realised by direct dispatch (`handle_request` matches on
the method), and the socket address plays no role in the verified
operations, so neither is carried here. -/
structure HostData where
  content_dir : FsPath
  config : Config
  hostname : String

/-- `String::remove(0)` as applied to the request path: drop the first
character. (The wire parser only yields a nonempty path token, so the
panicking empty case of `remove` is unreachable.) -/
def string_tail (s : String) : String :=
  String.mk (s.data.drop 1)

/-- The nonempty `/`-separated components of a path string
(`Path::components` on a relative string piece: empty segments from
repeated or trailing separators vanish). -/
def path_components (s : String) : List String :=
  ((split_on_char '/' s.data).map (fun cs => String.mk cs)).filter (fun c => c ≠ "")

/-- `PathBuf::push` of a string piece: a piece that starts with `/` is
absolute and replaces the base path, otherwise its components are
appended. -/
def path_push (base : FsPath) (s : String) : FsPath :=
  match s.data with
  | '/' :: _ => path_components s
  | _ => base ++ path_components s

/-- `static_server.rs` `get_relative_resource_path`: join the content
directory with the request path after removing its first character. -/
def get_relative_resource_path (content_dir : FsPath) (request : Request) : FsPath :=
  path_push content_dir (string_tail request.path)

/-- `Path::strip_prefix`: the component-wise suffix of `p` after the
prefix `pre`, or `none` when `pre` is not a component prefix of `p`. -/
def stripPrefix : FsPath → FsPath → Option FsPath
  | [], p => some p
  | _ :: _, [] => none
  | a :: as, b :: bs => if a = b then stripPrefix as bs else none

/-- `utils::path_if_existing` is called from `static_server.rs` but is
absent from the `utils.rs` in this tree. Modelled from the spec: the
error-page lookup takes the first candidate path that exists, so this
returns the given path exactly when it exists on the filesystem. -/
def path_if_existing (fs : FS) (path : FsPath) : Option FsPath :=
  if fs.path_exists path then some path else none

/-- `static_server.rs` `get_error_page`: look for `<code>.html` first in
the host content directory, then in the global content root. -/
def get_error_page (fs : FS) (status : Status) (data : HostData) : Option FsPath :=
  let file_name := toString status.code ++ ".html"
  let local_path := data.content_dir ++ [file_name]
  (path_if_existing fs local_path).orElse
    (fun _ => path_if_existing fs (data.config.directory ++ [file_name]))

/-- `static_server.rs` `load_error`: build a response with the given
status, loading the custom error page when one exists and otherwise
attaching the inline `Error: <code>` body. -/
def load_error (fs : FS) (status : Status) (data : HostData) : Response :=
  let response := Response.new status
  match get_error_page fs status data with
  | some path => response.load_file fs path
  | none => response.add_content ("Error: " ++ toString status.code)

/-- `static_server.rs` `redirect_dir`: 301 response whose `Location` is
built from the hostname, the configured port, the canonical path
relative to the content directory, and `/index.html`. In this model
path components are always valid UTF-8 strings, so the `to_str` failure
branch (which would yield `load_error BadRequest`) is unreachable. -/
def redirect_dir (path : FsPath) (data : HostData) : Response :=
  let resp := Response.new Status.Moved
  let index_location :=
    "http://" ++ data.hostname ++ ":" ++ toString data.config.port ++
      String.intercalate "/" path ++ "/index.html"
  resp.set_header "Location" index_location

/-- `static_server.rs` `handle_get_request`: canonicalize the joined
path (mapping `NotFound` to a 404 page, `PermissionDenied` to a 403
page, any other error to `server_error`), then require the canonical
result to have the content directory as a component prefix (else 403);
directories redirect, files are loaded. -/
def handle_get_request (fs : FS) (data : HostData) (request : Request) : Response :=
  let rel_res_path := get_relative_resource_path data.content_dir request
  match fs.canonicalize rel_res_path with
  | CanonResult.NotFound => load_error fs Status.NotFound data
  | CanonResult.PermissionDenied => load_error fs Status.Forbidden data
  | CanonResult.OtherError msg => server_error msg
  | CanonResult.Ok res_path =>
      match stripPrefix data.content_dir res_path with
      | some rel => if fs.is_dir res_path then redirect_dir rel data
                    else (Response.new Status.Ok).load_file fs res_path
      | none => load_error fs Status.Forbidden data

/-- `static_server.rs` `handle_head_request`: the GET response with the
body stripped. -/
def handle_head_request (fs : FS) (data : HostData) (request : Request) : Response :=
  (handle_get_request fs data request).to_head

/-- Read errors, from `reader.rs` (`enum ReadError`; `main.rs` carries
an identical private copy). -/
inductive ReadError where
  | ConnectionClosed
  | Timeout
  | BadSyntax
  | TooManyHeaders
deriving DecidableEq

/-- The byte buffer handed to the wire parser, abstracted by the facts
the parser contract depends on. Modelled from the spec: the external
`httparse` crate is a supplied primitive that classifies a buffer as
incomplete, malformed, or a complete request; `headerCount` is the
number of header lines the buffer holds, `request` the structured
request it parses to, and `consumed` the bytes consumed. -/
structure WireBuffer where
  complete : Bool
  wellFormed : Bool
  headerCount : Nat
  request : Request
  consumed : Nat
deriving DecidableEq

/-- Result of one parse attempt, from `parser.rs` (`enum Error` merged
with the success case of `try_parse`). -/
inductive ParseResult where
  | Partial
  | TooManyHeaders
  | SyntaxError
  | Ok : Request → Nat → ParseResult
deriving DecidableEq

/-- `parser.rs` / `reader.rs` `try_parse`. Modelled from the spec
contract of the wire parser: a buffer without a complete request-line +
headers terminator is `Partial`; a malformed buffer is a syntax error;
a complete well-formed buffer with more header lines than the allocated
capacity is `TooManyHeaders`; otherwise the parse succeeds. -/
def try_parse (headers_size : Nat) (buf : WireBuffer) : ParseResult :=
  if buf.complete = false then ParseResult.Partial
  else if buf.wellFormed = false then ParseResult.SyntaxError
  else if headers_size < buf.headerCount then ParseResult.TooManyHeaders
  else ParseResult.Ok buf.request buf.consumed

/-- `u32::from_str` over raw header-value bytes, composed with
`String::from_utf8` as `reader.rs` does: an optional leading `+`
followed by at least one ASCII digit, with the value bounded by
`u32::MAX`. Bytes that are not valid UTF-8 fail `from_utf8` and bytes
that are valid UTF-8 but not of this shape fail `parse`; both cases
are `none` here. -/
def parse_u32 (bs : List Nat) : Option Nat :=
  let ds := match bs with
            | 43 :: rest => rest
            | _ => bs
  if ds = [] then none
  else if ds.all (fun b => 48 ≤ b ∧ b ≤ 57) then
    let n := ds.foldl (fun acc b => acc * 10 + (b - 48)) 0
    if n < 4294967296 then some n else none
  else none

/-- `reader.rs` `get_content_length`: a missing `Content-Length` header
is length 0; a present one must be a valid `u32` numeral, otherwise
`BadSyntax`. (The source wraps the error as `ReadResult::Err`; the loop
immediately breaks with it, so the error payload is the `ReadError`.) -/
def get_content_length (req : Request) : Except ReadError Nat :=
  match get_header req.headers "Content-Length" with
  | none => Except.ok 0
  | some v =>
      match parse_u32 v with
      | some n => Except.ok n
      | none => Except.error ReadError.BadSyntax

/-- Result of one complete-buffer read attempt, from `reader.rs`
(`enum ReadResult`). -/
inductive ReadResult where
  | Partial
  | Ok : Request → ReadResult
  | Err : ReadError → ReadResult
deriving DecidableEq

/-- The retry loop inside `reader.rs` `try_read`, with the current
header capacity explicit. On `TooManyHeaders` with capacity below the
configured maximum, the capacity doubles, capped at the maximum; at or
above the maximum the read fails with `TooManyHeaders`. The capacity is
always positive (it starts at 16), which bounds the loop. -/
def try_read_loop (buf : WireBuffer) (max_headers_count : Nat) :
    (headers_size : Nat) → 0 < headers_size → ReadResult
  | headers_size, hpos =>
    match try_parse headers_size buf with
    | ParseResult.Partial => ReadResult.Partial
    | ParseResult.SyntaxError => ReadResult.Err ReadError.BadSyntax
    | ParseResult.TooManyHeaders =>
        if hlt : headers_size < max_headers_count then
          try_read_loop buf max_headers_count (min (2 * headers_size) max_headers_count)
            (by omega)
        else ReadResult.Err ReadError.TooManyHeaders
    | ParseResult.Ok req _ =>
        match get_content_length req with
        | Except.error err => ReadResult.Err err
        | Except.ok _ => ReadResult.Ok req
termination_by headers_size _ => max_headers_count - headers_size
decreasing_by omega

/-- `reader.rs` `try_read`: the retry loop started at capacity 16. -/
def try_read (buf : WireBuffer) (max_headers_count : Nat) : ReadResult :=
  try_read_loop buf max_headers_count 16 (by decide)

/-- Outcome of `main.rs` `get_res_or_partial`
(`Option<Result<Request, ReadError>>`), extended with the panic the
source can take on a malformed `Content-Length` (`parse().unwrap()` and
`panic!` on non-UTF-8 bytes). -/
inductive GetResOutcome where
  | Pending
  | Ok : Request → GetResOutcome
  | Err : ReadError → GetResOutcome
  | Panicked
deriving DecidableEq

/-- The loop inside `main.rs` `get_res_or_partial`: the same capacity
growth as `try_read_loop`, but the `Content-Length` validation panics
on a malformed value instead of reporting `BadSyntax`. -/
def get_res_or_partial_loop (buf : WireBuffer) (max_headers_count : Nat) :
    (headers_size : Nat) → 0 < headers_size → GetResOutcome
  | headers_size, hpos =>
    match try_parse headers_size buf with
    | ParseResult.Partial => GetResOutcome.Pending
    | ParseResult.SyntaxError => GetResOutcome.Err ReadError.BadSyntax
    | ParseResult.TooManyHeaders =>
        if hlt : headers_size < max_headers_count then
          get_res_or_partial_loop buf max_headers_count
            (min (2 * headers_size) max_headers_count) (by omega)
        else GetResOutcome.Err ReadError.TooManyHeaders
    | ParseResult.Ok req _ =>
        match get_header req.headers "Content-Length" with
        | none => GetResOutcome.Ok req
        | some v =>
            match parse_u32 v with
            | some _ => GetResOutcome.Ok req
            | none => GetResOutcome.Panicked
termination_by headers_size _ => max_headers_count - headers_size
decreasing_by omega

/-- `main.rs` `get_res_or_partial`: the loop started at capacity 16. -/
def get_res_or_partial (buf : WireBuffer) (max_headers_count : Nat) : GetResOutcome :=
  get_res_or_partial_loop buf max_headers_count 16 (by decide)

/-- One iteration of the loop in `main.rs` `handle_connection`, as a
function of the read outcome: the optional response written to the
socket (with its `Connection` header set from the close decision, as
the source does just before rendering) and whether the iteration ends
the per-connection loop. `close_connection` starts `false` each
iteration and is set only by the `ConnectionClosed` and `Timeout`
arms and by the GET handler result. -/
def handle_connection_step (read_result : Except ReadError Request)
    (handle : Request → Response × Bool) : Option Response × Bool :=
  let step : Option Response × Bool :=
    match read_result with
    | Except.ok request =>
        let rc := handle request
        (some rc.1, rc.2)
    | Except.error ReadError.ConnectionClosed => (none, true)
    | Except.error ReadError.Timeout => (some (Response.new Status.RequestTimeout), true)
    | Except.error ReadError.BadSyntax => (some (Response.new Status.BadRequest), false)
    | Except.error ReadError.TooManyHeaders => (some (Response.new Status.BadRequest), false)
  match step with
  | (some response, close_connection) =>
      (some (response.set_header "Connection"
          (if close_connection then "close" else "keep-alive")),
        close_connection)
  | (none, close_connection) => (none, close_connection)


/-! ### Helper lemmas -/

/-- Looking up the key just inserted yields the inserted value. -/
theorem get_insert_self {α : Type} (hs : List (String × α)) (k : String) (v : α) :
    get_header (insert_header hs k v) k = some v := by
  induction hs with
  | nil => simp [insert_header, get_header]
  | cons p rest ih =>
      obtain ⟨k0, v0⟩ := p
      by_cases h : k0 = k
      · simp [insert_header, get_header, h]
      · simp [insert_header, get_header, h, ih]

/-- Inserting one key leaves lookups of any other key unchanged. -/
theorem get_insert_ne {α : Type} (hs : List (String × α)) (k k0 : String) (v : α)
    (h : k0 ≠ k) : get_header (insert_header hs k0 v) k = get_header hs k := by
  induction hs with
  | nil => simp [insert_header, get_header, h]
  | cons p rest ih =>
      obtain ⟨k1, v1⟩ := p
      by_cases h1 : k1 = k0
      · subst h1
        simp [insert_header, get_header, h]
      · by_cases h2 : k1 = k
        · subst h2
          simp [insert_header, get_header, h1]
        · simp [insert_header, get_header, h1, h2, ih]

/-- `load_file` keeps the status of its receiver except when the read
fails and the result degrades to a 500 `server_error`. -/
theorem load_file_status (r : Response) (fs : FS) (p : FsPath) :
    (r.load_file fs p).status = r.status
      ∨ (r.load_file fs p).status = Status.InternalServerError := by
  unfold Response.load_file
  cases fs.read_file p with
  | none => exact Or.inr rfl
  | some b => exact Or.inl rfl

/-- `load_error` produces the requested status except when loading an
existing custom error page fails, which degrades to 500. -/
theorem load_error_status (fs : FS) (s : Status) (d : HostData) :
    (load_error fs s d).status = s
      ∨ (load_error fs s d).status = Status.InternalServerError := by
  unfold load_error
  cases get_error_page fs s d with
  | none => exact Or.inl rfl
  | some p => exact load_file_status (Response.new s) fs p

/-- Behaviour of the capacity-growth loop of `reader.rs` on a buffer
holding a complete, well-formed request with a valid `Content-Length`:
starting from any positive capacity, the loop succeeds exactly when the
header count fits below `max capacity maximum`, and reports
`TooManyHeaders` exactly when it does not. Fuel-bounded induction on
the distance from the capacity to the configured maximum. -/
theorem try_read_loop_spec (buf : WireBuffer) (m : Nat)
    (hc : buf.complete = true) (hw : buf.wellFormed = true) (n : Nat)
    (hcl : get_content_length buf.request = Except.ok n) :
    ∀ d headers_size, 0 < headers_size → m - headers_size ≤ d →
      (buf.headerCount ≤ max headers_size m →
        ∀ hpos, try_read_loop buf m headers_size hpos = ReadResult.Ok buf.request)
      ∧ (max headers_size m < buf.headerCount →
        ∀ hpos, try_read_loop buf m headers_size hpos = ReadResult.Err ReadError.TooManyHeaders) := by
  intro d
  induction d with
  | zero =>
      intro h hpos0 hle
      have hmh : m ≤ h := by omega
      constructor
      · intro hk hpos
        have hk2 : ¬ h < buf.headerCount := by omega
        rw [try_read_loop]
        simp [try_parse, hc, hw, hk2, hcl]
      · intro hk hpos
        have hk2 : h < buf.headerCount := by omega
        have hnm : ¬ h < m := by omega
        rw [try_read_loop]
        simp [try_parse, hc, hw, hk2, hnm]
  | succ d ih =>
      intro h hpos0 hle
      by_cases hk : h < buf.headerCount
      · by_cases hm : h < m
        · have hpos1 : 0 < min (2 * h) m := by omega
          have hle1 : m - min (2 * h) m ≤ d := by omega
          have ih2 := ih (min (2 * h) m) hpos1 hle1
          constructor
          · intro hkm hpos
            rw [try_read_loop]
            simp [try_parse, hc, hw, hk, hm]
            exact ih2.1 (by omega) _
          · intro hkm hpos
            rw [try_read_loop]
            simp [try_parse, hc, hw, hk, hm]
            exact ih2.2 (by omega) _
        · constructor
          · intro hkm hpos
            exact absurd hkm (by omega)
          · intro hkm hpos
            rw [try_read_loop]
            simp [try_parse, hc, hw, hk, hm]
      · constructor
        · intro hkm hpos
          rw [try_read_loop]
          simp [try_parse, hc, hw, hk, hcl]
        · intro hkm hpos
          exact absurd hkm (by omega)

/-! ### Claim theorems -/

/-- Claim C3, amended: for a buffer holding a complete, well-formed
request with `k` header lines and a valid `Content-Length`, the retry
loop (which starts the parser at capacity 16 and doubles the capacity
capped at the configured maximum `m` on each `TooManyHeaders`) succeeds
if and only if `k ≤ max 16 m`, and terminates with the `TooManyHeaders`
read error if and only if `k > max 16 m`. In particular, since the
starting capacity is 16, a request with `k ≤ 16` headers succeeds even
when `k` exceeds the configured maximum. -/
theorem claim3_header_growth (buf : WireBuffer) (m : Nat)
    (hc : buf.complete = true) (hw : buf.wellFormed = true) (n : Nat)
    (hcl : get_content_length buf.request = Except.ok n) :
    (try_read buf m = ReadResult.Ok buf.request ↔ buf.headerCount ≤ max 16 m)
    ∧ (try_read buf m = ReadResult.Err ReadError.TooManyHeaders ↔ max 16 m < buf.headerCount) := by
  have hspec := try_read_loop_spec buf m hc hw n hcl m 16 (by decide) (by omega)
  have B1 : buf.headerCount ≤ max 16 m → try_read buf m = ReadResult.Ok buf.request := by
    intro hle
    unfold try_read
    exact hspec.1 hle _
  have B2 : max 16 m < buf.headerCount →
      try_read buf m = ReadResult.Err ReadError.TooManyHeaders := by
    intro hgt
    unfold try_read
    exact hspec.2 hgt _
  constructor
  · constructor
    · intro he
      by_contra hgt
      have h2 := B2 (by omega)
      rw [he] at h2
      exact ReadResult.noConfusion h2
    · exact B1
  · constructor
    · intro he
      by_contra hgt
      have h1 := B1 (by omega)
      rw [he] at h1
      exact ReadResult.noConfusion h1
    · exact B2

/-- Witness for C3: a complete request with 20 header lines against
maximum 64 satisfies the hypotheses, and the growth property follows by
the theorem. -/
theorem claim3_header_growth_witness :
    ((⟨true, true, 20, ⟨"GET", "/", 1, []⟩, 0⟩ : WireBuffer).complete = true
      ∧ (⟨true, true, 20, ⟨"GET", "/", 1, []⟩, 0⟩ : WireBuffer).wellFormed = true
      ∧ get_content_length (⟨"GET", "/", 1, []⟩ : Request) = Except.ok 0)
    ∧ ((try_read ⟨true, true, 20, ⟨"GET", "/", 1, []⟩, 0⟩ 64
          = ReadResult.Ok ⟨"GET", "/", 1, []⟩
        ↔ (⟨true, true, 20, ⟨"GET", "/", 1, []⟩, 0⟩ : WireBuffer).headerCount ≤ max 16 64)
      ∧ (try_read ⟨true, true, 20, ⟨"GET", "/", 1, []⟩, 0⟩ 64
          = ReadResult.Err ReadError.TooManyHeaders
        ↔ max 16 64 < (⟨true, true, 20, ⟨"GET", "/", 1, []⟩, 0⟩ : WireBuffer).headerCount)) :=
  ⟨⟨rfl, rfl, rfl⟩, claim3_header_growth _ 64 rfl rfl 0 rfl⟩

/-- Counterexample to C3 as stated: with configured maximum 5 and a
complete request with 10 header lines, the claim demands termination
with `TooManyHeaders` (10 exceeds 5), but the loop starts at capacity
16 ≥ 10, so the very first parse attempt succeeds. -/
theorem claim3_counterexample :
    (5 : Nat) < 10
    ∧ try_read ⟨true, true, 10, ⟨"GET", "/", 1, []⟩, 0⟩ 5
        ≠ ReadResult.Err ReadError.TooManyHeaders
    ∧ try_read ⟨true, true, 10, ⟨"GET", "/", 1, []⟩, 0⟩ 5
        = ReadResult.Ok ⟨"GET", "/", 1, []⟩ := by
  refine ⟨by decide, ?_, ?_⟩
  · rw [try_read, try_read_loop]
    decide
  · rw [try_read, try_read_loop]
    decide

/-- Claim C1: if canonicalization of the joined path succeeds but the
canonical result does not have the (canonical) content directory as a
component prefix, resolution takes the out-of-range branch
(`load_error Forbidden`, the 403 page); and a 200 resolved-file
response can only arise when the canonical form lies under the content
directory. -/
theorem claim1_sandbox (fs : FS) (data : HostData) (request : Request) (q : FsPath)
    (hc : fs.canonicalize (get_relative_resource_path data.content_dir request)
        = CanonResult.Ok q) :
    (stripPrefix data.content_dir q = none →
      handle_get_request fs data request = load_error fs Status.Forbidden data)
    ∧ ((handle_get_request fs data request).status = Status.Ok →
      (stripPrefix data.content_dir q).isSome = true) := by
  have hg : handle_get_request fs data request =
      (match stripPrefix data.content_dir q with
       | some rel => if fs.is_dir q then redirect_dir rel data
                     else (Response.new Status.Ok).load_file fs q
       | none => load_error fs Status.Forbidden data) := by
    unfold handle_get_request
    dsimp only
    rw [hc]
  rw [hg]
  cases hsp : stripPrefix data.content_dir q with
  | none =>
      constructor
      · intro _
        rfl
      · intro hst
        exfalso
        rcases load_error_status fs Status.Forbidden data with h | h <;>
          · rw [hst] at h
            exact Status.noConfusion h
  | some rel =>
      constructor
      · intro h
        exact Option.noConfusion h
      · intro _
        rfl

/-- Witness for C1: a traversal request whose canonical target
`etc/passwd` lies outside the content directory `srv/h` satisfies the
hypothesis, and the sandbox property follows by the theorem. -/
theorem claim1_sandbox_witness :
    let fs : FS := ⟨fun _ => CanonResult.Ok ["etc", "passwd"], fun _ => false,
                    fun _ => none, fun _ => false⟩
    let data : HostData := ⟨["srv", "h"], ⟨["srv"], 80, 2, 512, 4⟩, "h"⟩
    let req : Request := ⟨"GET", "/../../etc/passwd", 1, []⟩
    (fs.canonicalize (get_relative_resource_path data.content_dir req)
        = CanonResult.Ok ["etc", "passwd"])
    ∧ ((stripPrefix data.content_dir ["etc", "passwd"] = none →
        handle_get_request fs data req = load_error fs Status.Forbidden data)
      ∧ ((handle_get_request fs data req).status = Status.Ok →
        (stripPrefix data.content_dir ["etc", "passwd"]).isSome = true)) :=
  ⟨rfl, claim1_sandbox _ _ _ _ rfl⟩

/-- Claim C2: for every filesystem state, host state and request, the
HEAD response has exactly the status and header mapping of the GET
response to the same request (including `Content-Length`) and carries
no body. -/
theorem claim2_head_strips_body (fs : FS) (data : HostData) (request : Request) :
    (handle_head_request fs data request).status = (handle_get_request fs data request).status
    ∧ (handle_head_request fs data request).headers
        = (handle_get_request fs data request).headers
    ∧ (handle_head_request fs data request).content = none :=
  ⟨rfl, rfl, rfl⟩

/-- Counterexample to C7 as stated: when canonicalization fails with a
permission-denied error, `handle_get_request` produces a 403 Forbidden
response, not the 500 the claim demands. -/
theorem claim7_counterexample :
    (handle_get_request
        ⟨fun _ => CanonResult.PermissionDenied, fun _ => false, fun _ => none, fun _ => false⟩
        ⟨["srv", "h"], ⟨["srv"], 80, 2, 512, 4⟩, "h"⟩
        ⟨"GET", "/secret.html", 1, []⟩).status = Status.Forbidden
    ∧ (handle_get_request
        ⟨fun _ => CanonResult.PermissionDenied, fun _ => false, fun _ => none, fun _ => false⟩
        ⟨["srv", "h"], ⟨["srv"], 80, 2, 512, 4⟩, "h"⟩
        ⟨"GET", "/secret.html", 1, []⟩).status ≠ Status.InternalServerError := by
  decide

/-- Claim C7, amended: a not-found canonicalization failure yields the
non-existent outcome (the 404 page); a permission-denied failure yields
the 403 Forbidden page; every other I/O failure yields the 500
`server_error` response. -/
theorem claim7_canonicalize_errors (fs : FS) (data : HostData) (request : Request) :
    (fs.canonicalize (get_relative_resource_path data.content_dir request)
        = CanonResult.NotFound →
      handle_get_request fs data request = load_error fs Status.NotFound data)
    ∧ (fs.canonicalize (get_relative_resource_path data.content_dir request)
        = CanonResult.PermissionDenied →
      handle_get_request fs data request = load_error fs Status.Forbidden data)
    ∧ (∀ msg, fs.canonicalize (get_relative_resource_path data.content_dir request)
        = CanonResult.OtherError msg →
      handle_get_request fs data request = server_error msg
      ∧ (server_error msg).status = Status.InternalServerError) := by
  refine ⟨?_, ?_, ?_⟩
  · intro h
    unfold handle_get_request
    dsimp only
    rw [h]
  · intro h
    unfold handle_get_request
    dsimp only
    rw [h]
  · intro msg h
    constructor
    · unfold handle_get_request
      dsimp only
      rw [h]
    · rfl

/-- Witness for C7 (amended): a filesystem whose canonicalization
reports not-found satisfies the first hypothesis, and the 404 outcome
follows by the theorem. -/
theorem claim7_canonicalize_errors_witness :
    let fs : FS := ⟨fun _ => CanonResult.NotFound, fun _ => false, fun _ => none,
                    fun _ => false⟩
    let data : HostData := ⟨["srv", "h"], ⟨["srv"], 80, 2, 512, 4⟩, "h"⟩
    let req : Request := ⟨"GET", "/missing", 1, []⟩
    (fs.canonicalize (get_relative_resource_path data.content_dir req)
        = CanonResult.NotFound)
    ∧ handle_get_request fs data req = load_error fs Status.NotFound data :=
  ⟨rfl, (claim7_canonicalize_errors _ _ _).1 rfl⟩

/-- Counterexample to C4 as stated: when reading terminates with
`BadSyntax`, the connection handler does send a 400 response, but the
close flag is `false` — the response carries `Connection: keep-alive`
and the per-connection loop continues instead of ending. -/
theorem claim4_counterexample :
    (handle_connection_step (Except.error ReadError.BadSyntax)
        (fun _ => (Response.new Status.Ok, false))).2 = false
    ∧ ((handle_connection_step (Except.error ReadError.BadSyntax)
        (fun _ => (Response.new Status.Ok, false))).1.map Response.status)
        = some Status.BadRequest
    ∧ ((handle_connection_step (Except.error ReadError.BadSyntax)
        (fun _ => (Response.new Status.Ok, false))).1.bind
          (fun r => get_header r.headers "Connection")) = some "keep-alive" := by
  decide

/-- Claim C4, amended: on a `BadSyntax` or `TooManyHeaders` read error
the connection handler sends a response with status 400 whose
`Connection` header is `keep-alive`, and does not close the connection
(the per-connection loop reads another request). -/
theorem claim4_bad_requests_keep_alive (handle : Request → Response × Bool) (e : ReadError)
    (he : e = ReadError.BadSyntax ∨ e = ReadError.TooManyHeaders) :
    (handle_connection_step (Except.error e) handle).2 = false
    ∧ ((handle_connection_step (Except.error e) handle).1.map Response.status
        = some Status.BadRequest)
    ∧ ((handle_connection_step (Except.error e) handle).1.bind
        (fun r => get_header r.headers "Connection") = some "keep-alive") := by
  rcases he with h | h <;> subst h <;> exact ⟨rfl, rfl, rfl⟩

/-- Witness for C4 (amended): the `TooManyHeaders` error instantiates
the hypothesis, and the keep-alive 400 behaviour follows by the
theorem. -/
theorem claim4_bad_requests_keep_alive_witness :
    (ReadError.TooManyHeaders = ReadError.BadSyntax
      ∨ ReadError.TooManyHeaders = ReadError.TooManyHeaders)
    ∧ ((handle_connection_step (Except.error ReadError.TooManyHeaders)
          (fun _ => (Response.new Status.Ok, false))).2 = false
      ∧ ((handle_connection_step (Except.error ReadError.TooManyHeaders)
          (fun _ => (Response.new Status.Ok, false))).1.map Response.status
          = some Status.BadRequest)
      ∧ ((handle_connection_step (Except.error ReadError.TooManyHeaders)
          (fun _ => (Response.new Status.Ok, false))).1.bind
          (fun r => get_header r.headers "Connection") = some "keep-alive")) :=
  ⟨Or.inr rfl, claim4_bad_requests_keep_alive _ _ (Or.inr rfl)⟩

/-- Claim C5, evaluated at failing inputs: on a complete request whose
`Content-Length` value is `abc` (bytes 97 98 99) or the non-UTF-8 byte
255, the library reader (`reader.rs` `try_read`) returns `BadSyntax` as
the claim states, but the duplicated loop the binary actually runs
(`main.rs` `get_res_or_partial`) panics instead of returning it. -/
theorem claim5_content_length_divergence :
    try_read ⟨true, true, 1, ⟨"GET", "/", 1, [("Content-Length", [97, 98, 99])]⟩, 0⟩ 512
      = ReadResult.Err ReadError.BadSyntax
    ∧ get_res_or_partial ⟨true, true, 1, ⟨"GET", "/", 1, [("Content-Length", [97, 98, 99])]⟩, 0⟩ 512
      = GetResOutcome.Panicked
    ∧ try_read ⟨true, true, 1, ⟨"GET", "/", 1, [("Content-Length", [255])]⟩, 0⟩ 512
      = ReadResult.Err ReadError.BadSyntax
    ∧ get_res_or_partial ⟨true, true, 1, ⟨"GET", "/", 1, [("Content-Length", [255])]⟩, 0⟩ 512
      = GetResOutcome.Panicked := by
  refine ⟨?_, ?_, ?_, ?_⟩
  · rw [try_read, try_read_loop]
    decide
  · rw [ get_res_or_partial, get_res_or_partial_loop]
    decide
  · rw [try_read, try_read_loop]
    decide
  · rw [ get_res_or_partial, get_res_or_partial_loop]
    decide

/-- Claim C6, evaluated at the failing input: `GET /sub/` against host
`localhost` on port 8080 whose content directory contains the directory
`sub` redirects with status 301, but the `Location` header is built
from the path relative to the content directory, which has no leading
slash, so it reads `http://localhost:8080sub/index.html` instead of the
claimed `http://localhost:8080/sub/index.html`. -/
theorem claim6_redirect_location :
    let fs : FS := ⟨fun p => if p = ["srv", "localhost", "sub"]
                      then CanonResult.Ok ["srv", "localhost", "sub"]
                      else CanonResult.NotFound,
                    fun p => p == ["srv", "localhost", "sub"],
                    fun _ => none, fun _ => false⟩
    let data : HostData := ⟨["srv", "localhost"], ⟨["srv"], 8080, 2, 512, 4⟩, "localhost"⟩
    let req : Request := ⟨"GET", "/sub/", 1, []⟩
    (handle_get_request fs data req).status = Status.Moved
    ∧ get_header (handle_get_request fs data req).headers "Location"
        = some "http://localhost:8080sub/index.html"
    ∧ "http://localhost:8080sub/index.html" ≠ "http://localhost:8080/sub/index.html" := by
  decide

/-- Claim C8: for every filesystem, status and host, the error-page
lookup returns `<code>.html` from the host content directory when it
exists there, otherwise that file from the global content root when it
exists there, and when neither exists the response body is the
non-empty inline fallback `Error: <code>`. -/
theorem claim8_error_page_precedence (fs : FS) (s : Status) (data : HostData) :
    (fs.path_exists (data.content_dir ++ [toString s.code ++ ".html"]) = true →
      get_error_page fs s data = some (data.content_dir ++ [toString s.code ++ ".html"]))
    ∧ (fs.path_exists (data.content_dir ++ [toString s.code ++ ".html"]) = false →
       fs.path_exists (data.config.directory ++ [toString s.code ++ ".html"]) = true →
      get_error_page fs s data = some (data.config.directory ++ [toString s.code ++ ".html"]))
    ∧ (fs.path_exists (data.content_dir ++ [toString s.code ++ ".html"]) = false →
       fs.path_exists (data.config.directory ++ [toString s.code ++ ".html"]) = false →
      get_error_page fs s data = none
      ∧ (load_error fs s data).content = some ("Error: " ++ toString s.code)
      ∧ ("Error: " ++ toString s.code) ≠ "") := by
  refine ⟨?_, ?_, ?_⟩
  · intro h1
    unfold get_error_page path_if_existing
    simp [h1]
  · intro h1 h2
    unfold get_error_page path_if_existing
    simp [h1, h2, Option.orElse]
  · intro h1 h2
    have hp : get_error_page fs s data = none := by
      unfold get_error_page path_if_existing
      simp [h1, h2, Option.orElse]
    refine ⟨hp, ?_, ?_⟩
    · unfold load_error
      rw [hp]
      rfl
    · cases s <;> decide

/-- Witness for C8: a host directory that contains `404.html`
instantiates the first hypothesis, and the local error page is chosen
by the theorem. -/
theorem claim8_error_page_precedence_witness :
    ((⟨fun _ => CanonResult.NotFound, fun _ => false, fun _ => none,
        fun p => p == ["srv", "h", "404.html"]⟩ : FS).path_exists
        ((["srv", "h"] : FsPath) ++ [toString Status.NotFound.code ++ ".html"]) = true)
    ∧ get_error_page
        ⟨fun _ => CanonResult.NotFound, fun _ => false, fun _ => none,
          fun p => p == ["srv", "h", "404.html"]⟩
        Status.NotFound ⟨["srv", "h"], ⟨["srv"], 80, 2, 512, 4⟩, "h"⟩
        = some ((["srv", "h"] : FsPath) ++ [toString Status.NotFound.code ++ ".html"]) :=
  ⟨by decide, (claim8_error_page_precedence _ _ _).1 (by decide)⟩

/-- Claim C9, evaluated at the failing input: rendering a response with
a body places the blank line (CRLF CRLF) between the header section and
the body, and `Content-Length` always equals the byte length of the
currently attached body (re-derived on every attachment); but rendering
a response with no body ends after the last header's CRLF — the
terminating blank line the claim requires is missing, because the empty
element is last in the `Vec::join` call. -/
theorem claim9_render_and_content_length :
    Response.render (Response.new Status.Ok)
      = "HTTP/1.1 200\r\nServer: Telpenarmo\x27s webserver\r\n"
    ∧ Response.render ((Response.new Status.Ok).add_content "x")
      = "HTTP/1.1 200\r\nServer: Telpenarmo\x27s webserver\r\nContent-Length: 1\r\n\r\nx"
    ∧ get_header ((Response.new Status.Ok).add_content "x").headers "Content-Length"
      = some "1"
    ∧ get_header (((Response.new Status.Ok).add_content "x").add_content "abc").headers
        "Content-Length" = some "3" := by
  decide

/-- Claim C10: every response built by `Response::new` carries the
`Server: Telpenarmo\x27s webserver` header, and `add_content`,
`load_file` and `to_head` preserve it. -/
theorem claim10_server_header (s : Status) (r : Response) (fs : FS) (p : FsPath)
    (c : String) (v : String) :
    get_header (Response.new s).headers "Server" = some "Telpenarmo\x27s webserver"
    ∧ (get_header r.headers "Server" = some v →
        get_header (r.add_content c).headers "Server" = some v)
    ∧ (get_header r.headers "Server" = some "Telpenarmo\x27s webserver" →
        get_header (r.load_file fs p).headers "Server"
          = some "Telpenarmo\x27s webserver")
    ∧ get_header r.to_head.headers "Server" = get_header r.headers "Server" := by
  refine ⟨rfl, ?_, ?_, rfl⟩
  · intro h
    unfold Response.add_content
    rw [get_insert_ne _ _ _ _ (by decide)]
    exact h
  · intro h
    unfold Response.load_file
    cases h0 : fs.read_file p with
    | none => rfl
    | some b =>
        unfold Response.set_header Response.add_content
        rw [get_insert_ne _ _ _ _ (by decide), get_insert_ne _ _ _ _ (by decide)]
        exact h

/-- Witness for C10: a fresh 404 response carries the `Server` header,
and it survives `add_content` by the theorem. -/
theorem claim10_server_header_witness :
    get_header (Response.new Status.NotFound).headers "Server"
      = some "Telpenarmo\x27s webserver"
    ∧ get_header ((Response.new Status.NotFound).add_content "abc").headers "Server"
      = some "Telpenarmo\x27s webserver" :=
  ⟨by decide,
    (claim10_server_header Status.NotFound (Response.new Status.NotFound)
        ⟨fun _ => CanonResult.NotFound, fun _ => false, fun _ => none, fun _ => false⟩
        [] "abc" "Telpenarmo\x27s webserver").2.1 (by decide)⟩
